import Mathlib

/-!
Verification of the Curve Locator compatibility shim.

This file gives a shallow embedding of the two Python modules
`src/xplane_utils/xplane_anim_compat.py` (namespace `AnimCompat`) and
`src/xplane_utils/xplane_anim_compat_bak.py` (namespace `AnimCompatBak`),
and settles the specification claims about them.

Modelling choices, shared by every definition below:

* Host-owned opaque Curve handles are natural numbers.
* A host collection seen by a Python `for` loop is an `FColl`: its `items`
  in native order, plus an optional failure point (`failAt = some k` means
  the host iterator raises after yielding the first `k` items).  Python
  truthiness of a collection is nonemptiness of `items`.
* A Python attribute that may be absent is an `Option` field
  (`none` = `hasattr` is false / `getattr(x, a, None)` yields `None`).
* The host-provided helper entry points of `bpy_extras.anim_utils` are
  fields of a `Host` record: availability flags for the two imports and the
  behaviour of the two slot-resolution helpers, which may raise
  (`Except.error`) or return `none` or a `ChannelBag`.
* A generator is embedded as the pair of the yielded sequence and a `Bool`
  that is `true` exactly when the generator finished without an uncaught
  exception escaping to the caller.
-/

/-- Opaque F-Curve handle (an id chosen by the host). -/
abbrev Curve := Nat

/-- A host-owned collection as seen by one `for` loop: `items` in native
order; when `failAt = some k` the host iterator raises after yielding the
first `k` items (so `failAt = some 0` raises before the first item); when
`failAt = none` iteration finishes normally. -/
structure FColl (α : Type) where
  items : List α
  failAt : Option Nat
deriving Repr, DecidableEq

/-- Running one `for` loop over a fallible collection: the yielded prefix,
and whether the loop finished without raising. -/
def collYield {α : Type} (fc : FColl α) : List α × Bool :=
  match fc.failAt with
  | none => (fc.items, true)
  | some k => (fc.items.take k, false)

/-- Opaque ActionSlot handle. -/
structure Slot where
  id : Nat
deriving Repr, DecidableEq

/-- ChannelBag: `fcurves` is the curve collection attribute (absent on some
host versions), `groups` the named-group collection (absent on modern,
slotted hosts; a group is identified by its name). -/
structure ChannelBag where
  fcurves : Option (FColl Curve)
  groups : Option (List String)
deriving Repr, DecidableEq

/-- Strip of the layered Action shape. -/
structure Strip where
  channelbags : Option (List ChannelBag)
deriving Repr, DecidableEq

/-- Layer of the layered Action shape. -/
structure Layer where
  strips : Option (List Strip)
deriving Repr, DecidableEq

namespace Anim

/-- Action handle (namespaced because the root name `Action` is taken by
Mathlib).  Depending on host version it exposes a flat `fcurves`
collection, a `slots` collection, a `layers` collection, and a named
`groups` collection; each field is `none` when the attribute is absent. -/
structure Action where
  fcurves : Option (FColl Curve)
  slots : Option (List Slot)
  layers : Option (List Layer)
  groups : Option (List String)
deriving Repr, DecidableEq

end Anim

/-- AnimationData handle: `action` holds zero or one Action;
`action_slot = none` means the attribute is absent (so plain access raises
and `getattr(ad, "action_slot", None)` yields `None`), while
`action_slot = some s` means the attribute is present with value `s`. -/
structure AnimData where
  action : Option Anim.Action
  action_slot : Option (Option Slot)
deriving Repr, DecidableEq

/-- The host side of the API: whether `bpy_extras.anim_utils` imports,
whether `action_ensure_channelbag_for_slot` imports, and the behaviour of
the two helpers.  `getBag` embeds `action_get_channelbag_for_slot` and
`ensureBag` embeds `action_ensure_channelbag_for_slot` (its `Bool` argument
is the `ensure` keyword); both may raise (`Except.error`). -/
structure Host where
  animUtilsAvailable : Bool
  ensureHelperAvailable : Bool
  getBag : Anim.Action → Option Slot → Except Unit (Option ChannelBag)
  ensureBag : Anim.Action → Option Slot → Bool → Except Unit (Option ChannelBag)

/-- The value returned by `get_action_channelbag`: on the legacy path it is
the Action itself, on the slotted path a ChannelBag. -/
inductive Container where
  | act : Anim.Action → Container
  | bag : ChannelBag → Container
deriving Repr, DecidableEq

/-- The `groups` attribute of a container (`hasattr(container, "groups")`
is `Option.isSome` of this). -/
def containerGroups : Container → Option (List String)
  | Container.act a => a.groups
  | Container.bag cb => cb.groups

/-- Python `getattr(x, attr, None)` followed by a truthiness test on a list
attribute: an absent attribute and an empty collection both contribute the
empty list. -/
def optList {α : Type} : Option (List α) → List α
  | none => []
  | some l => l

/-- The slot value seen through `getattr(anim_data, "action_slot", None)`:
absent attribute and a `None` value both give `none`. -/
def animSlot (d : AnimData) : Option Slot :=
  match d.action_slot with
  | none => none
  | some s => s

/-- The curve items of a bag's `fcurves` attribute, empty when the
attribute is absent. -/
def fcItems (cb : ChannelBag) : List Curve :=
  match cb.fcurves with
  | none => []
  | some fc => fc.items

/-- Sequencing of generator pieces: run each piece in order, concatenating
yields, stopping at the first piece whose loop raised. -/
def seqYield : List (List Curve × Bool) → List Curve × Bool
  | [] => ([], true)
  | p :: rest =>
    if p.2 then
      let r := seqYield rest
      (p.1 ++ r.1, r.2)
    else (p.1, false)

/-- One channel bag's contribution inside the layered loop of
`iter_action_fcurves`: `fcurves = getattr(cb, "fcurves", None)`; a falsy
(absent or empty) collection is skipped with `continue`, otherwise the
curves are yielded by a `for` loop that may raise partway. -/
def bagPiece (cb : ChannelBag) : List Curve × Bool :=
  match cb.fcurves with
  | none => ([], true)
  | some fc => if fc.items.isEmpty then ([], true) else collYield fc

/-- The channel bags reached by the nested layered loops, in the source's
`layer → strip → channelbag` order; `if not xs: return / continue` skips
absent and empty collections. -/
def bagList (a : Anim.Action) : List ChannelBag :=
  (optList a.layers).flatMap fun layer =>
    (optList layer.strips).flatMap fun strip =>
      optList strip.channelbags

/-- The generator pieces of the layered branch of `iter_action_fcurves`
(this branch is textually identical in the two modules). -/
def layeredPieces (a : Anim.Action) : List (List Curve × Bool) :=
  (bagList a).map bagPiece

/-- Embedding of the lookup-or-create idiom
`container.groups.get(name) or container.groups.new(name)`
(line 55 of the main module, lines 65 and 68 of the backup module):
result group name plus the groups collection after the call. -/
def groupsEnsure (gs : List String) (name : String) : String × List String :=
  if name ∈ gs then (name, gs) else (name, gs ++ [name])

namespace AnimCompat

/-- Embedding of `get_action_channelbag` of `xplane_anim_compat.py`
(lines 23-42): guard on falsy `anim_data` / `anim_data.action`; legacy
branch `hasattr(action, "groups")` returns the Action itself; otherwise it
imports `action_ensure_channelbag_for_slot`, reads `anim_data.action_slot`
(plain access: an absent attribute raises) and call the helper with
`ensure`; every exception in the `try` collapses to `none`. -/
def get_action_channelbag (host : Host) (ad : Option AnimData) (ensure : Bool) :
    Option Container :=
  match ad with
  | none => none
  | some d =>
    match d.action with
    | none => none
    | some action =>
      if action.groups.isSome then
        some (Container.act action)
      else if host.ensureHelperAvailable then
        match d.action_slot with
        | none => none
        | some slot =>
          match host.ensureBag action slot ensure with
          | Except.ok cb => cb.map Container.bag
          | Except.error _ => none
      else none

/-- Embedding of `ensure_action_group` of `xplane_anim_compat.py`
(lines 45-59): resolve the container with `ensure=True`; when it has a
`groups` attribute, look the group up or create it; otherwise return
`None`.  The second component is the container's groups collection after
the call (`none` when no groups collection was consulted); the host-side
creation of the group is this one visible state change. -/
def ensure_action_group (host : Host) (ad : Option AnimData) (name : String) :
    Option String × Option (List String) :=
  match ad with
  | none => (none, none)
  | some d =>
    match d.action with
    | none => (none, none)
    | some _ =>
      match get_action_channelbag host (some d) true with
      | none => (none, none)
      | some c =>
        match containerGroups c with
        | some gs =>
          let r := groupsEnsure gs name
          (some r.1, some r.2)
        | none => (none, none)

/-- Embedding of `iter_action_fcurves` of `xplane_anim_compat.py`
(lines 62-101): `None` action yields nothing; `hasattr(action, "fcurves")`
starts a guarded `for` loop over the flat collection that returns on
completion and falls through to the layered loops when the host iterator
raises; the layered loops are unguarded, so a raise there escapes
(second component `false`). -/
def iter_action_fcurves (action : Option Anim.Action) : List Curve × Bool :=
  match action with
  | none => ([], true)
  | some a =>
    match a.fcurves with
    | some fc =>
      let l := collYield fc
      if l.2 then (l.1, true)
      else
        let r := seqYield (layeredPieces a)
        (l.1 ++ r.1, r.2)
    | none => seqYield (layeredPieces a)

end AnimCompat

namespace AnimCompatBak

/-- Embedding of `get_action_channelbag` of `xplane_anim_compat_bak.py`
(lines 23-50): inside the outer `try`, import `anim_utils`, take
`getattr(anim_data, "action_slot", None)` with first-slot fallback when
the action's `slots` attribute is truthy; with a slot in hand, try the
ensure helper and on any failure there fall back to
`action_get_channelbag_for_slot`; a failure of that too, or no slot,
reaches the legacy `hasattr(action, "groups")` check; else `None`. -/
def get_action_channelbag (host : Host) (ad : Option AnimData) (ensure : Bool) :
    Option Container :=
  match ad with
  | none => none
  | some d =>
    match d.action with
    | none => none
    | some action =>
      let legacy : Option Container :=
        if action.groups.isSome then some (Container.act action) else none
      if host.animUtilsAvailable then
        let slot : Option Slot :=
          match animSlot d with
          | some s => some s
          | none =>
            match action.slots with
            | some (s :: _) => some s
            | _ => none
        match slot with
        | none => legacy
        | some s =>
          let attempt : Except Unit (Option ChannelBag) :=
            if host.ensureHelperAvailable then host.ensureBag action (some s) ensure
            else Except.error ()
          match attempt with
          | Except.ok cb => cb.map Container.bag
          | Except.error _ =>
            match host.getBag action (some s) with
            | Except.ok cb => cb.map Container.bag
            | Except.error _ => legacy
      else legacy

/-- Embedding of `ensure_action_group` of `xplane_anim_compat_bak.py`
(lines 55-68): like the main module, except that when the resolved
container has no `groups` attribute the final line still evaluates
`container.groups`, raising an uncaught `AttributeError`
(`Except.error`). -/
def ensure_action_group (host : Host) (ad : Option AnimData) (name : String) :
    Except Unit (Option String × Option (List String)) :=
  match ad with
  | none => Except.ok (none, none)
  | some d =>
    match d.action with
    | none => Except.ok (none, none)
    | some _ =>
      match get_action_channelbag host (some d) true with
      | none => Except.ok (none, none)
      | some c =>
        match containerGroups c with
        | some gs =>
          let r := groupsEnsure gs name
          Except.ok (some r.1, some r.2)
        | none => Except.error ()

/-- One slot's contribution inside the slotted loop of the backup module's
`iter_action_fcurves`: resolve the bag with
`action_get_channelbag_for_slot` (a raise aborts the slotted stage), skip
falsy bags and falsy `fcurves`, else yield the bag's curves with a `for`
loop that may raise partway. -/
def slotPiece (host : Host) (a : Anim.Action) (s : Slot) : List Curve × Bool :=
  match host.getBag a (some s) with
  | Except.error _ => ([], false)
  | Except.ok none => ([], true)
  | Except.ok (some cb) =>
    match cb.fcurves with
    | none => ([], true)
    | some fc => if fc.items.isEmpty then ([], true) else collYield fc

/-- The code of `iter_action_fcurves` of `xplane_anim_compat_bak.py` that
runs once control falls past the slotted stage (lines 94-122): the legacy
stage (truthiness test `if action.fcurves:` before the loop, `return` on
completion, fall through to the layered loops on a raise), then the
unguarded layered loops. -/
def legacyThenLayered (a : Anim.Action) : List Curve × Bool :=
  match a.fcurves with
  | some fc =>
    if fc.items.isEmpty then ([], true)
    else
      let l := collYield fc
      if l.2 then (l.1, true)
      else
        let r := seqYield (layeredPieces a)
        (l.1 ++ r.1, r.2)
  | none => seqYield (layeredPieces a)

/-- Embedding of `iter_action_fcurves` of `xplane_anim_compat_bak.py`
(lines 71-122): slotted stage first (guarded `try`: import `anim_utils`,
truthy `slots` loop over `slotPiece`, `return` on completion, fall through
on a raise keeping the yields so far); then `legacyThenLayered`. -/
def iter_action_fcurves (host : Host) (action : Option Anim.Action) : List Curve × Bool :=
  match action with
  | none => ([], true)
  | some a =>
    if host.animUtilsAvailable then
      match a.slots with
      | some slots =>
        if slots.isEmpty then legacyThenLayered a
        else
          let l := seqYield (slots.map (slotPiece host a))
          if l.2 then (l.1, true)
          else (l.1 ++ (legacyThenLayered a).1, (legacyThenLayered a).2)
      | none => legacyThenLayered a
    else legacyThenLayered a

end AnimCompatBak

/-! ### Functions shared verbatim by the two modules

`get_channelbag_for_anim_data`, `get_fcurves_for_anim_data` and
`remove_fcurve_from_collection` are textually identical in
`xplane_anim_compat.py` (lines 104-181) and `xplane_anim_compat_bak.py`
(lines 126-203); each is embedded once. -/

/-- Embedding of `get_channelbag_for_anim_data` (identical in both
modules): `None` anim_data or absent/`None` action give `None`; a
failing import of `anim_utils` gives `None`; `getattr(anim_data, "action_slot",
None)` equal to `None` gives `None`; otherwise the result of
`action_get_channelbag_for_slot`, with a raise collapsing to `None`. -/
def get_channelbag_for_anim_data (host : Host) (ad : Option AnimData) :
    Option ChannelBag :=
  match ad with
  | none => none
  | some d =>
    match d.action with
    | none => none
    | some action =>
      if host.animUtilsAvailable then
        match animSlot d with
        | none => none
        | some s =>
          match host.getBag action (some s) with
          | Except.ok cb => cb
          | Except.error _ => none
      else none

/-- Embedding of `get_fcurves_for_anim_data` (identical in both modules):
inside a guarded `try`, import `anim_utils`, take the active slot with
first-slot fallback, resolve the bag and return `list(cb.fcurves)` (an
absent `fcurves` attribute or a raising iterator falls back); outside the
`try`, `list(action.fcurves)` is unguarded, so a raising legacy iterator
escapes (`Except.error`). -/
def get_fcurves_for_anim_data (host : Host) (ad : Option AnimData) :
    Except Unit (List Curve) :=
  match ad with
  | none => Except.ok []
  | some d =>
    match d.action with
    | none => Except.ok []
    | some action =>
      let fallback : Except Unit (List Curve) :=
        match action.fcurves with
        | some fc =>
          match fc.failAt with
          | none => Except.ok fc.items
          | some _ => Except.error ()
        | none => Except.ok []
      if host.animUtilsAvailable then
        let slot : Option Slot :=
          match animSlot d with
          | some s => some s
          | none =>
            match action.slots with
            | some (s :: _) => some s
            | _ => none
        match slot with
        | none => fallback
        | some s =>
          match host.getBag action (some s) with
          | Except.error _ => fallback
          | Except.ok none => fallback
          | Except.ok (some cb) =>
            match cb.fcurves with
            | none => fallback
            | some fc =>
              match fc.failAt with
              | none => Except.ok fc.items
              | some _ => fallback
      else fallback

/-- Outcome of one call into the host's `fcurves.remove`: success, a
`TypeError` (the parameter-mismatch case), or any other exception. -/
inductive CallResult where
  | ok : CallResult
  | typeError : CallResult
  | otherError : CallResult
deriving Repr, DecidableEq

/-- A curve collection as seen by `remove_fcurve_from_collection`: how the
host reacts to the keyword call `remove(fcurve=fcurve)` and to the
positional call `remove(fcurve)`. -/
structure RemoveColl where
  kw : CallResult
  pos : CallResult
deriving Repr, DecidableEq

/-- Embedding of `remove_fcurve_from_collection` (identical in both
modules): `None` arguments give `False`; the keyword convention is tried
first; only its `TypeError` triggers the positional retry; every other
exception of either call is swallowed into `False`. -/
def remove_fcurve_from_collection (fcurves : Option RemoveColl) (fcurve : Option Curve) :
    Bool :=
  match fcurves, fcurve with
  | none, _ => false
  | some _, none => false
  | some c, some _ =>
    match c.kw with
    | CallResult.ok => true
    | CallResult.typeError =>
      match c.pos with
      | CallResult.ok => true
      | _ => false
    | CallResult.otherError => false

/-! ### Spec-side definitions

The following definitions are written from the WORDS of the specification
and of the claims (not from the source); they are compared with the
source-derived definitions above. -/

/-- Spec wording for the slotted enumeration: "for each slot in its native
order, resolve its ChannelBag and yield its curves in native order" (a
slot that resolves to nothing contributes no curves). -/
def slotCurves (host : Host) (a : Anim.Action) : List Curve :=
  (optList a.slots).flatMap fun s =>
    match host.getBag a (some s) with
    | Except.ok (some cb) => fcItems cb
    | _ => []

/-- Spec wording for the layered enumeration: "yield curves in the nested
order layer → strip → channel-bag → curve, flattened depth-first", an
absent or empty collection at any nesting level contributing zero items. -/
def layeredFlatten (a : Anim.Action) : List Curve :=
  (optList a.layers).flatMap fun layer =>
    (optList layer.strips).flatMap fun strip =>
      (optList strip.channelbags).flatMap fun cb => fcItems cb

/-- Claim C1 as stated: the enumeration preference order of
`iterate_curves` — the slotted shape when the host exposes the per-slot
resolution helper and the Action has slots, else the legacy flat
collection when that attribute is exposed, else the layered shape. -/
def iterSpec (host : Host) (a : Anim.Action) : List Curve :=
  if host.animUtilsAvailable = true ∧ optList a.slots ≠ [] then
    slotCurves host a
  else
    match a.fcurves with
    | some fc => fc.items
    | none => layeredFlatten a

/-- Claim C3 as stated: `resolve_channel_bag` probes the legacy shape
first (an Action exposing the flat/grouped collection attribute is itself
the bag), then the slotted shape (the active slot, or the first available
slot when none is active, resolved to its ChannelBag, created only when
`ensure` is set and the host supports creation), else none. -/
def resolveChannelBagClaim (host : Host) (ad : Option AnimData) (ensure : Bool) :
    Option Container :=
  match ad with
  | none => none
  | some d =>
    match d.action with
    | none => none
    | some action =>
      if action.groups.isSome then some (Container.act action)
      else if host.animUtilsAvailable then
        let slot : Option Slot :=
          match animSlot d with
          | some s => some s
          | none => (optList action.slots).head?
        match slot with
        | none => none
        | some s =>
          match (if host.ensureHelperAvailable then host.ensureBag action (some s) ensure
                 else host.getBag action (some s)) with
          | Except.ok cb => cb.map Container.bag
          | Except.error _ => none
      else none

/-! ### Fail-free predicates

Decidable predicates stating that the host collections and helpers an
enumeration touches do not raise. -/

/-- A channel bag whose `fcurves` loop cannot raise. -/
def bagOk (cb : ChannelBag) : Bool :=
  match cb.fcurves with
  | none => true
  | some fc => fc.failAt.isNone

/-- Every channel bag reachable through the layered shape is fail-free. -/
def layersOk (a : Anim.Action) : Bool :=
  (bagList a).all bagOk

/-- Every slot of the action resolves without raising, to nothing or to a
fail-free bag. -/
def slotsOk (host : Host) (a : Anim.Action) : Bool :=
  (optList a.slots).all fun s =>
    match host.getBag a (some s) with
    | Except.error _ => false
    | Except.ok none => true
    | Except.ok (some cb) => bagOk cb

/-- The legacy flat collection, when exposed, is fail-free. -/
def legacyOk (a : Anim.Action) : Bool :=
  match a.fcurves with
  | none => true
  | some fc => fc.failAt.isNone

/-- One slot's curves as the spec words them (so that `slotCurves` is
their flatMap). -/
def slotCurveOne (host : Host) (a : Anim.Action) (s : Slot) : List Curve :=
  match host.getBag a (some s) with
  | Except.ok (some cb) => fcItems cb
  | _ => []

/-! ### Concrete host configurations

Closed inputs used by the counterexamples, the failing-input evaluations
and the witnesses below. -/

/-- A modern ChannelBag holding the single curve `3` and no `groups`
collection. -/
def cbW3 : ChannelBag := { fcurves := some { items := [3], failAt := none }, groups := none }

/-- A channel bag holding curve `9`, fail-free. -/
def cbW9 : ChannelBag := { fcurves := some { items := [9], failAt := none }, groups := none }

/-- A channel bag holding curve `4`, fail-free. -/
def cbW4 : ChannelBag := { fcurves := some { items := [4], failAt := none }, groups := none }

/-- A channel bag holding curve `5`, fail-free. -/
def cbW5 : ChannelBag := { fcurves := some { items := [5], failAt := none }, groups := none }

/-- A purely slotted Action: one slot, no `fcurves`, `layers` or `groups`
attribute. -/
def aSlotOnly : Anim.Action :=
  { fcurves := none, slots := some [{ id := 0 }], layers := none, groups := none }

/-- A host on which both helper imports succeed and both helpers resolve
slot `0` to `cbW3` (and any other slot, or a `None` slot, to nothing). -/
def hostSlot : Host :=
  { animUtilsAvailable := true
    ensureHelperAvailable := true
    getBag := fun _ s => if s = some { id := 0 } then Except.ok (some cbW3) else Except.ok none
    ensureBag := fun _ s _ => if s = some { id := 0 } then Except.ok (some cbW3) else Except.ok none }

/-- A host on which neither import of `bpy_extras.anim_utils` succeeds
(an old host version). -/
def hostOld : Host :=
  { animUtilsAvailable := false
    ensureHelperAvailable := false
    getBag := fun _ _ => Except.error ()
    ensureBag := fun _ _ _ => Except.error () }

/-- One layer, one strip, one channel bag `cbW9`. -/
def layersW9 : List Layer := [{ strips := some [{ channelbags := some [cbW9] }] }]

/-- An Action whose legacy flat collection raises after yielding curve `1`
(of `[1, 2]`), and whose layered shape holds curve `9`. -/
def aMixed : Anim.Action :=
  { fcurves := some { items := [1, 2], failAt := some 1 }
    slots := none
    layers := some layersW9
    groups := none }

/-- An Action exposing both the legacy `groups` attribute and a slot
(the shape-overlap input for the probe-order counterexample). -/
def aBoth : Anim.Action :=
  { fcurves := some { items := [1, 2], failAt := none }
    slots := some [{ id := 0 }]
    layers := none
    groups := some [] }

/-- AnimationData pointing at `aBoth` with active slot `0`. -/
def adBoth : AnimData := { action := some aBoth, action_slot := some (some { id := 0 }) }

/-- AnimationData pointing at `aSlotOnly` whose `action_slot` attribute is
absent. -/
def adNoSlotAttr : AnimData := { action := some aSlotOnly, action_slot := none }

/-- AnimationData pointing at `aSlotOnly` with active slot `0`. -/
def adSlot : AnimData := { action := some aSlotOnly, action_slot := some (some { id := 0 }) }

/-- A legacy Action: flat fail-free curves, a `groups` collection, no
slots or layers. -/
def aLegacy : Anim.Action :=
  { fcurves := some { items := [1, 2], failAt := none }
    slots := none
    layers := none
    groups := some [] }

/-- AnimationData pointing at `aLegacy`. -/
def adLegacy : AnimData := { action := some aLegacy, action_slot := none }

/-- The spec's layered example: two layers, each with one strip, each with
one channel bag, holding `[4]` and `[5]` respectively. -/
def aLayered : Anim.Action :=
  { fcurves := none
    slots := none
    layers := some
      [ { strips := some [{ channelbags := some [cbW4] }] }
      , { strips := some [{ channelbags := some [cbW5] }] } ]
    groups := none }

/-- A legacy Action that also exposes the layered shape holding curve `9`
(used to show the legacy shape wins and the layered one is untouched). -/
def aLegacyPlusLayers : Anim.Action :=
  { fcurves := some { items := [1, 2], failAt := none }
    slots := none
    layers := some layersW9
    groups := none }

/-! ### Helper lemmas -/

theorem slotCurves_eq_flatMap (host : Host) (a : Anim.Action) :
    slotCurves host a = (optList a.slots).flatMap (slotCurveOne host a) := by
  unfold slotCurves slotCurveOne
  rfl

theorem collYield_ok {α : Type} (fc : FColl α) (h : fc.failAt = none) :
    collYield fc = (fc.items, true) := by
  unfold collYield
  rw [h]

theorem bagPiece_ok (cb : ChannelBag) (h : bagOk cb = true) :
    bagPiece cb = (fcItems cb, true) := by
  unfold bagPiece fcItems
  cases hcb : cb.fcurves with
  | none => rfl
  | some fc =>
    have hfail : fc.failAt = none := by
      unfold bagOk at h
      rw [hcb] at h
      exact Option.isNone_iff_eq_none.mp h
    by_cases he : fc.items.isEmpty
    · have : fc.items = [] := List.isEmpty_iff.mp he
      simp [he, this]
    · simp [he, collYield_ok fc hfail]

theorem seqYield_all_ok (ps : List (List Curve × Bool))
    (h : ∀ p ∈ ps, p.2 = true) :
    seqYield ps = ((ps.map Prod.fst).flatten, true) := by
  induction ps with
  | nil => rfl
  | cons p rest ih =>
    have hp : p.2 = true := h p (List.mem_cons_self p rest)
    have hr := ih (fun q hq => h q (List.mem_cons_of_mem p hq))
    simp [seqYield, hp, hr]

theorem layeredFlatten_eq (a : Anim.Action) :
    layeredFlatten a = (bagList a).flatMap fcItems := by
  unfold layeredFlatten bagList
  simp [List.flatMap_assoc]

theorem layered_ok (a : Anim.Action) (h : layersOk a = true) :
    seqYield (layeredPieces a) = (layeredFlatten a, true) := by
  have hall : ∀ cb ∈ bagList a, bagOk cb = true := by
    unfold layersOk at h
    exact fun cb hcb => List.all_eq_true.mp h cb hcb
  have hsnd : ∀ p ∈ layeredPieces a, p.2 = true := by
    intro p hp
    unfold layeredPieces at hp
    obtain ⟨cb, hcb, rfl⟩ := List.mem_map.mp hp
    rw [bagPiece_ok cb (hall cb hcb)]
  rw [seqYield_all_ok _ hsnd]
  unfold layeredPieces
  rw [List.map_map]
  have hmap : (bagList a).map (Prod.fst ∘ bagPiece) = (bagList a).map fcItems :=
    List.map_congr_left fun cb hcb => by rw [Function.comp_apply, bagPiece_ok cb (hall cb hcb)]
  rw [hmap, layeredFlatten_eq]
  simp [List.flatMap]

theorem slotPiece_ok (host : Host) (a : Anim.Action) (s : Slot)
    (h : (match host.getBag a (some s) with
          | Except.error _ => false
          | Except.ok none => true
          | Except.ok (some cb) => bagOk cb) = true) :
    AnimCompatBak.slotPiece host a s = (slotCurveOne host a s, true) := by
  unfold AnimCompatBak.slotPiece slotCurveOne
  cases hg : host.getBag a (some s) with
  | error e => rw [hg] at h; simp at h
  | ok cb =>
    cases cb with
    | none => rfl
    | some bag =>
      rw [hg] at h
      have := bagPiece_ok bag h
      unfold bagPiece at this
      simpa using this

theorem slotStage_ok (host : Host) (a : Anim.Action) (h : slotsOk host a = true) :
    seqYield ((optList a.slots).map (AnimCompatBak.slotPiece host a)) =
      (slotCurves host a, true) := by
  have hall : ∀ s ∈ optList a.slots,
      (match host.getBag a (some s) with
       | Except.error _ => false
       | Except.ok none => true
       | Except.ok (some cb) => bagOk cb) = true := by
    unfold slotsOk at h
    exact fun s hs => List.all_eq_true.mp h s hs
  have hsnd : ∀ p ∈ (optList a.slots).map (AnimCompatBak.slotPiece host a), p.2 = true := by
    intro p hp
    obtain ⟨s, hs, rfl⟩ := List.mem_map.mp hp
    rw [slotPiece_ok host a s (hall s hs)]
  rw [seqYield_all_ok _ hsnd, List.map_map]
  have hmap : (optList a.slots).map (Prod.fst ∘ AnimCompatBak.slotPiece host a) =
      (optList a.slots).map (slotCurveOne host a) :=
    List.map_congr_left fun s hs => by
      rw [Function.comp_apply, slotPiece_ok host a s (hall s hs)]
  rw [hmap, slotCurves_eq_flatMap]
  simp [List.flatMap]

theorem mainIter_ok (a : Anim.Action) (hleg : legacyOk a = true) (hlay : layersOk a = true) :
    AnimCompat.iter_action_fcurves (some a) =
      ((match a.fcurves with
        | some fc => fc.items
        | none => layeredFlatten a), true) := by
  unfold AnimCompat.iter_action_fcurves
  cases hfc : a.fcurves with
  | none => simp [hfc, layered_ok a hlay]
  | some fc =>
    have hfail : fc.failAt = none := by
      unfold legacyOk at hleg
      rw [hfc] at hleg
      exact Option.isNone_iff_eq_none.mp hleg
    simp [hfc, collYield_ok fc hfail]

theorem bakIter_slotted (host : Host) (a : Anim.Action)
    (h1 : host.animUtilsAvailable = true) (h2 : optList a.slots ≠ [])
    (hslt : slotsOk host a = true) :
    AnimCompatBak.iter_action_fcurves host (some a) = (slotCurves host a, true) := by
  unfold AnimCompatBak.iter_action_fcurves
  cases hs : a.slots with
  | none => rw [hs] at h2; simp [optList] at h2
  | some slots =>
    have hne : slots ≠ [] := by rw [hs] at h2; simpa [optList] using h2
    have hstage := slotStage_ok host a hslt
    rw [hs] at hstage
    simp only [optList] at hstage
    simp [h1, hs, List.isEmpty_iff, hne, hstage]

theorem legacyThenLayered_of_legacy (a : Anim.Action) (fc : FColl Curve)
    (hfc : a.fcurves = some fc) (hfail : fc.failAt = none) :
    AnimCompatBak.legacyThenLayered a = (fc.items, true) := by
  unfold AnimCompatBak.legacyThenLayered
  by_cases he : fc.items.isEmpty
  · simp [hfc, he, List.isEmpty_iff.mp he]
  · simp [hfc, he, collYield_ok fc hfail]

theorem legacyThenLayered_ok (a : Anim.Action)
    (hleg : legacyOk a = true) (hlay : layersOk a = true) :
    AnimCompatBak.legacyThenLayered a =
      ((match a.fcurves with
        | some fc => fc.items
        | none => layeredFlatten a), true) := by
  cases hfc : a.fcurves with
  | none =>
    unfold AnimCompatBak.legacyThenLayered
    simp [hfc, layered_ok a hlay]
  | some fc =>
    have hfail : fc.failAt = none := by
      unfold legacyOk at hleg
      rw [hfc] at hleg
      exact Option.isNone_iff_eq_none.mp hleg
    simp [legacyThenLayered_of_legacy a fc hfc hfail]

theorem bakIter_fallthrough (host : Host) (a : Anim.Action)
    (hns : host.animUtilsAvailable = false ∨ optList a.slots = []) :
    AnimCompatBak.iter_action_fcurves host (some a) =
      AnimCompatBak.legacyThenLayered a := by
  unfold AnimCompatBak.iter_action_fcurves
  cases hns with
  | inl h => simp [h]
  | inr h =>
    cases hu : host.animUtilsAvailable with
    | false => simp
    | true =>
      cases hs : a.slots with
      | none => simp [hs]
      | some slots =>
        have : slots = [] := by rw [hs] at h; simpa [optList] using h
        subst this
        simp [hs]

theorem bakIter_no_slot (host : Host) (a : Anim.Action)
    (hns : host.animUtilsAvailable = false ∨ optList a.slots = [])
    (hleg : legacyOk a = true) (hlay : layersOk a = true) :
    AnimCompatBak.iter_action_fcurves host (some a) =
      ((match a.fcurves with
        | some fc => fc.items
        | none => layeredFlatten a), true) := by
  rw [bakIter_fallthrough host a hns]
  exact legacyThenLayered_ok a hleg hlay

theorem bakIter_ok (host : Host) (a : Anim.Action)
    (hleg : legacyOk a = true) (hlay : layersOk a = true) (hslt : slotsOk host a = true) :
    AnimCompatBak.iter_action_fcurves host (some a) = (iterSpec host a, true) := by
  unfold iterSpec
  by_cases hc : host.animUtilsAvailable = true ∧ optList a.slots ≠ []
  · rw [if_pos hc]
    exact bakIter_slotted host a hc.1 hc.2 hslt
  · rw [if_neg hc]
    push_neg at hc
    rcases Bool.eq_false_or_eq_true host.animUtilsAvailable with hu | hu
    · exact bakIter_no_slot host a (Or.inr (hc hu)) hleg hlay
    · exact bakIter_no_slot host a (Or.inl hu) hleg hlay

theorem groupsEnsure_fst (gs : List String) (n : String) : (groupsEnsure gs n).1 = n := by
  unfold groupsEnsure
  split <;> rfl

theorem groupsEnsure_mem (gs : List String) (n : String) (h : n ∈ gs) :
    groupsEnsure gs n = (n, gs) := by
  unfold groupsEnsure
  rw [if_pos h]

theorem groupsEnsure_not_mem (gs : List String) (n : String) (h : n ∉ gs) :
    groupsEnsure gs n = (n, gs ++ [n]) := by
  unfold groupsEnsure
  rw [if_neg h]

theorem groupsEnsure_mem_snd (gs : List String) (n : String) : n ∈ (groupsEnsure gs n).2 := by
  unfold groupsEnsure
  by_cases h : n ∈ gs
  · rw [if_pos h]; exact h
  · rw [if_neg h]; simp

theorem bakGet_legacy (host : Host) (d : AnimData) (a : Anim.Action)
    (hact : d.action = some a) (hg : a.groups.isSome = true)
    (hns : host.animUtilsAvailable = false ∨ (animSlot d = none ∧ optList a.slots = [])) :
    AnimCompatBak.get_action_channelbag host (some d) true = some (Container.act a) := by
  unfold AnimCompatBak.get_action_channelbag
  cases hns with
  | inl h => simp [hact, h, hg]
  | inr h =>
    obtain ⟨h1, h2⟩ := h
    cases hu : host.animUtilsAvailable with
    | false => simp [hact, hg]
    | true =>
      cases hs : a.slots with
      | none => simp [hact, h1, hs, hg]
      | some sl =>
        have : sl = [] := by rw [hs] at h2; simpa [optList] using h2
        subst this
        simp [hact, h1, hs, hg]

theorem bakEnsure_legacy (host : Host) (d : AnimData) (a : Anim.Action)
    (gs : List String) (n : String)
    (hact : d.action = some a) (hgrp : a.groups = some gs)
    (hns : host.animUtilsAvailable = false ∨ (animSlot d = none ∧ optList a.slots = [])) :
    AnimCompatBak.ensure_action_group host (some d) n
      = Except.ok (some n, some (groupsEnsure gs n).2) := by
  have hg : a.groups.isSome = true := by rw [hgrp]; rfl
  unfold AnimCompatBak.ensure_action_group
  simp [hact, bakGet_legacy host d a hact hg hns, containerGroups, hgrp, groupsEnsure_fst]

/-! ### Claim theorems -/

/-- C1 (counterexample): the claim's preference order is violated by the
main module.  On `aSlotOnly` — the per-slot resolution helper is exposed
by `hostSlot` and the Action has one slot resolving to a bag holding
curve `3` — the claimed order (`iterSpec`) prescribes `[3]`, but the main
module's `iter_action_fcurves` never consults the slotted shape and
yields nothing. -/
theorem c1_counterexample_main_skips_slotted :
    AnimCompat.iter_action_fcurves (some aSlotOnly) = ([], true) ∧
    iterSpec hostSlot aSlotOnly = [3] ∧
    (AnimCompat.iter_action_fcurves (some aSlotOnly)).1 ≠ iterSpec hostSlot aSlotOnly := by
  refine ⟨by decide, by decide, by decide⟩

/-- C1 (amended): on every fail-free input the backup module's
`iter_action_fcurves` follows the claimed preference order — slotted when
the helper imports and the Action has slots, else legacy flat, else
layered (`iterSpec`) — while the main module's `iter_action_fcurves`
consults only two shapes, the legacy flat collection first and else the
layered shape, never the slotted one. -/
theorem c1_amended_preference_order (host : Host) (a : Anim.Action)
    (hleg : legacyOk a = true) (hlay : layersOk a = true)
    (hslt : slotsOk host a = true) :
    AnimCompatBak.iter_action_fcurves host (some a) = (iterSpec host a, true) ∧
    AnimCompat.iter_action_fcurves (some a) =
      ((match a.fcurves with
        | some fc => fc.items
        | none => layeredFlatten a), true) :=
  ⟨bakIter_ok host a hleg hlay hslt, mainIter_ok a hleg hlay⟩

/-- Witness for C1 (amended) at `hostSlot` and `aSlotOnly`. -/
theorem c1_amended_preference_order_witness :
    legacyOk aSlotOnly = true ∧ layersOk aSlotOnly = true ∧
    slotsOk hostSlot aSlotOnly = true ∧
    AnimCompatBak.iter_action_fcurves hostSlot (some aSlotOnly)
      = (iterSpec hostSlot aSlotOnly, true) :=
  ⟨by decide, by decide, by decide,
    (c1_amended_preference_order hostSlot aSlotOnly (by decide) (by decide) (by decide)).1⟩

/-- C2 (counterexample): one call of the main module's
`iter_action_fcurves` on `aMixed` yields `[1, 9]`: curve `1` comes from
the legacy flat collection (which raises after yielding it) and curve `9`
from the layered shape, so curves of two different shapes are yielded
within a single call when the matching shape's enumeration fails partway
through. -/
theorem c2_counterexample_shapes_merged :
    AnimCompat.iter_action_fcurves (some aMixed) = ([1, 9], true) ∧
    aMixed.fcurves = some { items := [1, 2], failAt := some 1 } ∧
    layeredFlatten aMixed = [9] ∧
    (1 : Curve) ∈ (AnimCompat.iter_action_fcurves (some aMixed)).1 ∧
    (1 : Curve) ∉ layeredFlatten aMixed ∧
    (9 : Curve) ∈ (AnimCompat.iter_action_fcurves (some aMixed)).1 ∧
    (9 : Curve) ∉ ([1, 2] : List Curve) := by
  refine ⟨by decide, by decide, by decide, by decide, by decide, by decide, by decide⟩

/-- C2 (amended): when the first matching shape's enumeration completes
without raising, the yielded sequence is drawn from that shape alone —
the main module yields exactly the legacy flat collection whenever it is
exposed and fail-free, and the backup module yields exactly the slotted
curves whenever the helper imports, slots exist and resolve without
raising (and, past the slotted stage, exactly the fail-free legacy
collection); shapes are merged only when a matching shape raises after
yielding some curves. -/
theorem c2_amended_single_shape_on_success (host : Host) (a : Anim.Action)
    (fc : FColl Curve) :
    (a.fcurves = some fc → fc.failAt = none →
      AnimCompat.iter_action_fcurves (some a) = (fc.items, true)) ∧
    (host.animUtilsAvailable = true → optList a.slots ≠ [] →
      slotsOk host a = true →
      AnimCompatBak.iter_action_fcurves host (some a) = (slotCurves host a, true)) ∧
    ((host.animUtilsAvailable = false ∨ optList a.slots = []) →
      a.fcurves = some fc → fc.failAt = none →
      AnimCompatBak.iter_action_fcurves host (some a) = (fc.items, true)) := by
  refine ⟨?_, ?_, ?_⟩
  · intro hfc hfail
    unfold AnimCompat.iter_action_fcurves
    simp [hfc, collYield_ok fc hfail]
  · intro h1 h2 hslt
    exact bakIter_slotted host a h1 h2 hslt
  · intro hns hfc hfail
    rw [bakIter_fallthrough host a hns]
    exact legacyThenLayered_of_legacy a fc hfc hfail

/-- Witness for C2 (amended): the main module on an Action exposing a
fail-free legacy collection `[1, 2]` and a layered shape holding `9`
yields exactly `[1, 2]`. -/
theorem c2_amended_single_shape_witness :
    aLegacyPlusLayers.fcurves = some { items := [1, 2], failAt := none } ∧
    AnimCompat.iter_action_fcurves (some aLegacyPlusLayers) = ([1, 2], true) :=
  ⟨rfl,
    (c2_amended_single_shape_on_success hostOld aLegacyPlusLayers
        { items := [1, 2], failAt := none }).1 rfl rfl⟩

/-- C3 (counterexample): the claimed probe order (`resolveChannelBagClaim`:
legacy first, then slotted with a first-slot fallback) matches neither
module.  On `adBoth` (Action exposing both `groups` and a resolvable
active slot) the claim prescribes the Action itself but the backup module
returns the slot's bag; on `adNoSlotAttr` (no `action_slot` attribute,
one resolvable slot) the claim prescribes the first slot's bag but the
main module returns none. -/
theorem c3_counterexample_probe_order :
    AnimCompatBak.get_action_channelbag hostSlot (some adBoth) false
      = some (Container.bag cbW3) ∧
    resolveChannelBagClaim hostSlot (some adBoth) false
      = some (Container.act aBoth) ∧
    Container.bag cbW3 ≠ Container.act aBoth ∧
    AnimCompat.get_action_channelbag hostSlot (some adNoSlotAttr) true = none ∧
    resolveChannelBagClaim hostSlot (some adNoSlotAttr) true
      = some (Container.bag cbW3) := by
  refine ⟨by decide, by decide, by decide, by decide, by decide⟩

/-- C3 (amended): the main module probes the legacy shape first (an
Action exposing `groups` is returned as the bag even when slots resolve),
then resolves through the ensure helper passing the stored `action_slot`
value as-is — with no fallback to the Action's first slot, and none when
the attribute is absent; the backup module probes the slotted shape first
(active slot, else first available slot) and a helper-resolved slot wins
over the legacy shape; with no helper and no `groups` attribute both
return none. -/
theorem c3_amended_probe_order (host : Host) (a : Anim.Action) (e : Bool)
    (s0 : Option Slot) (cb : ChannelBag) :
    (a.groups.isSome = true →
      AnimCompat.get_action_channelbag host
          (some { action := some a, action_slot := some s0 }) e
        = some (Container.act a)) ∧
    (a.groups = none → host.ensureHelperAvailable = true →
      AnimCompat.get_action_channelbag host
          (some { action := some a, action_slot := some s0 }) e
        = (match host.ensureBag a s0 e with
           | Except.ok r => r.map Container.bag
           | Except.error _ => none)) ∧
    (a.groups = none →
      AnimCompat.get_action_channelbag host
          (some { action := some a, action_slot := none }) e = none) ∧
    (host.animUtilsAvailable = true → host.ensureHelperAvailable = true →
      ∀ s : Slot, host.ensureBag a (some s) e = Except.ok (some cb) →
      AnimCompatBak.get_action_channelbag host
          (some { action := some a, action_slot := some (some s) }) e
        = some (Container.bag cb)) ∧
    (host.animUtilsAvailable = true → host.ensureHelperAvailable = true →
      ∀ (s : Slot) (rest : List Slot), a.slots = some (s :: rest) →
      host.ensureBag a (some s) e = Except.ok (some cb) →
      AnimCompatBak.get_action_channelbag host
          (some { action := some a, action_slot := some none }) e
        = some (Container.bag cb)) ∧
    (a.groups = none → host.animUtilsAvailable = false →
      host.ensureHelperAvailable = false →
      AnimCompat.get_action_channelbag host
          (some { action := some a, action_slot := some s0 }) e = none ∧
      AnimCompatBak.get_action_channelbag host
          (some { action := some a, action_slot := some s0 }) e = none) := by
  refine ⟨?_, ?_, ?_, ?_, ?_, ?_⟩
  · intro hg
    unfold AnimCompat.get_action_channelbag
    simp [hg]
  · intro hg hh
    unfold AnimCompat.get_action_channelbag
    simp [hg, hh]
  · intro hg
    unfold AnimCompat.get_action_channelbag
    simp [hg]
  · intro h1 h2 s hbag
    unfold AnimCompatBak.get_action_channelbag
    simp [h1, h2, animSlot, hbag]
  · intro h1 h2 s rest hs hbag
    unfold AnimCompatBak.get_action_channelbag
    simp [h1, h2, animSlot, hs, hbag]
  · intro hg h1 h2
    constructor
    · unfold AnimCompat.get_action_channelbag
      simp [hg, h2]
    · unfold AnimCompatBak.get_action_channelbag
      simp [hg, h1]

/-- Witness for C3 (amended): on `adBoth`'s Action (which exposes
`groups`) the main module returns the Action itself. -/
theorem c3_amended_probe_order_witness :
    aBoth.groups.isSome = true ∧
    AnimCompat.get_action_channelbag hostSlot
        (some { action := some aBoth, action_slot := some (some { id := 0 }) }) false
      = some (Container.act aBoth) :=
  ⟨by decide,
    (c3_amended_probe_order hostSlot aBoth false (some { id := 0 }) cbW3).1 (by decide)⟩

/-- C4: for every Action in the layered shape (no legacy flat attribute;
for the backup module additionally no usable slotted stage) whose layered
collections do not raise, `iter_action_fcurves` of both modules yields
exactly `layeredFlatten` — the depth-first
layer → strip → channel-bag → curve flattening in which an absent or
empty collection at any nesting level contributes zero items — and
finishes without an error. -/
theorem c4_layered_depth_first (host : Host) (a : Anim.Action)
    (hfc : a.fcurves = none) (hlay : layersOk a = true) :
    AnimCompat.iter_action_fcurves (some a) = (layeredFlatten a, true) ∧
    ((host.animUtilsAvailable = false ∨ optList a.slots = []) →
      AnimCompatBak.iter_action_fcurves host (some a) = (layeredFlatten a, true)) ∧
    (a.layers = none → layeredFlatten a = []) := by
  have hleg : legacyOk a = true := by
    unfold legacyOk
    rw [hfc]
  refine ⟨?_, ?_, ?_⟩
  · have h := mainIter_ok a hleg hlay
    rw [hfc] at h
    exact h
  · intro hns
    have h := bakIter_no_slot host a hns hleg hlay
    rw [hfc] at h
    exact h
  · intro hl
    unfold layeredFlatten
    rw [hl]
    rfl

/-- Witness for C4 at the spec's example: two layers, each with one strip
and one channel bag, holding `[4]` and `[5]`, yield `[4, 5]` in layer
order. -/
theorem c4_layered_depth_first_witness :
    aLayered.fcurves = none ∧ layersOk aLayered = true ∧
    AnimCompat.iter_action_fcurves (some aLayered) = ([4, 5], true) := by
  refine ⟨rfl, by decide, ?_⟩
  have h := (c4_layered_depth_first hostOld aLayered rfl (by decide)).1
  rw [h]
  decide

/-- C5 (failing input): the backup module's `ensure_action_group` lets an
exception escape.  On `adSlot` the resolved container is the modern
ChannelBag `cbW3` with no `groups` collection, and the final line of
`ensure_action_group` (line 68) evaluates `container.groups` anyway,
raising an uncaught `AttributeError` — contradicting the claim that every
host-side failure is caught inside the operation. -/
theorem c5_bak_ensure_group_raises :
    AnimCompatBak.get_action_channelbag hostSlot (some adSlot) true
      = some (Container.bag cbW3) ∧
    cbW3.groups = none ∧
    AnimCompatBak.ensure_action_group hostSlot (some adSlot) "g" = Except.error () := by
  refine ⟨by decide, rfl, rfl⟩

/-- C7 (failing input): on a resolved modern ChannelBag without a
named-group collection, the main module's `ensure_action_group` returns
none and touches no groups collection, as the claim states, but the
backup module raises an uncaught `AttributeError` instead of returning
none. -/
theorem c7_modern_bag_grouping :
    AnimCompat.get_action_channelbag hostSlot (some adSlot) true
      = some (Container.bag cbW3) ∧
    cbW3.groups = none ∧
    AnimCompat.ensure_action_group hostSlot (some adSlot) "g" = (none, none) ∧
    AnimCompatBak.ensure_action_group hostSlot (some adSlot) "g" = Except.error () := by
  refine ⟨by decide, rfl, rfl, rfl⟩

/-- C6: `remove_fcurve_from_collection` returns false on a none
collection or a none curve; on present arguments it returns true exactly
when the keyword call succeeds or the keyword call fails with a
parameter mismatch (`TypeError`) and the positional retry succeeds; and
the positional outcome is never consulted unless the keyword call failed
with a `TypeError` (the embedding is total, so no exception escapes for
any host behaviour). -/
theorem c6_remove_curve_conventions (c : RemoveColl) (f : Curve)
    (fc0 : Option RemoveColl) (p q : CallResult) :
    remove_fcurve_from_collection none (some f) = false ∧
    remove_fcurve_from_collection fc0 none = false ∧
    (remove_fcurve_from_collection (some c) (some f) = true ↔
      (c.kw = CallResult.ok ∨ (c.kw = CallResult.typeError ∧ c.pos = CallResult.ok))) ∧
    remove_fcurve_from_collection (some { kw := CallResult.ok, pos := p }) (some f)
      = remove_fcurve_from_collection (some { kw := CallResult.ok, pos := q }) (some f) ∧
    remove_fcurve_from_collection (some { kw := CallResult.otherError, pos := p }) (some f)
      = remove_fcurve_from_collection (some { kw := CallResult.otherError, pos := q }) (some f) := by
  refine ⟨rfl, ?_, ?_, rfl, rfl⟩
  · cases fc0 <;> rfl
  · cases c with
    | mk kw pos => cases kw <;> cases pos <;> simp [remove_fcurve_from_collection]

/-- C8: on a legacy container (an Action exposing `groups`),
`ensure_action_group` of both modules is an idempotent lookup-or-create:
one call returns the named group and a groups collection that contains
the name — unchanged when the name was present, extended by exactly that
one name when absent — and a second call with the same name on the
updated state returns the same group and the same collection, creating
nothing further.  For the backup module the stated condition (no helper
stack, or no slot to resolve) is what routes its container resolution to
the legacy shape. -/
theorem c8_group_lookup_or_create_idempotent (host : Host) (d : AnimData)
    (a : Anim.Action) (gs : List String) (n : String)
    (hact : d.action = some a) (hgrp : a.groups = some gs) :
    AnimCompat.ensure_action_group host (some d) n
      = (some n, some (groupsEnsure gs n).2) ∧
    (n ∈ gs → (groupsEnsure gs n).2 = gs) ∧
    (n ∉ gs → (groupsEnsure gs n).2 = gs ++ [n]) ∧
    n ∈ (groupsEnsure gs n).2 ∧
    AnimCompat.ensure_action_group host
        (some { d with action := some { a with groups := some (groupsEnsure gs n).2 } }) n
      = (some n, some (groupsEnsure gs n).2) ∧
    ((host.animUtilsAvailable = false ∨ (animSlot d = none ∧ optList a.slots = [])) →
      AnimCompatBak.ensure_action_group host (some d) n
        = Except.ok (some n, some (groupsEnsure gs n).2)) ∧
    ((host.animUtilsAvailable = false ∨ (animSlot d = none ∧ optList a.slots = [])) →
      AnimCompatBak.ensure_action_group host
          (some { d with action := some { a with groups := some (groupsEnsure gs n).2 } }) n
        = Except.ok (some n, some (groupsEnsure gs n).2)) := by
  refine ⟨?_, ?_, ?_, groupsEnsure_mem_snd gs n, ?_, ?_, ?_⟩
  · unfold AnimCompat.ensure_action_group AnimCompat.get_action_channelbag
    simp [hact, hgrp, containerGroups, groupsEnsure_fst]
  · intro h
    rw [groupsEnsure_mem gs n h]
  · intro h
    rw [groupsEnsure_not_mem gs n h]
  · unfold AnimCompat.ensure_action_group AnimCompat.get_action_channelbag
    have hmem : n ∈ (groupsEnsure gs n).2 := groupsEnsure_mem_snd gs n
    simp [containerGroups, groupsEnsure_mem _ n hmem]
  · intro hns
    exact bakEnsure_legacy host d a gs n hact hgrp hns
  · intro hns
    have hmem : n ∈ (groupsEnsure gs n).2 := groupsEnsure_mem_snd gs n
    have hns2 : host.animUtilsAvailable = false ∨
        (animSlot { d with action := some { a with groups := some (groupsEnsure gs n).2 } } = none ∧
         optList (Anim.Action.slots { a with groups := some (groupsEnsure gs n).2 }) = []) := by
      cases hns with
      | inl h => exact Or.inl h
      | inr h => exact Or.inr ⟨h.1, h.2⟩
    have h2 := bakEnsure_legacy host
      { d with action := some { a with groups := some (groupsEnsure gs n).2 } }
      { a with groups := some (groupsEnsure gs n).2 }
      (groupsEnsure gs n).2 n rfl rfl hns2
    rw [h2, groupsEnsure_mem _ n hmem]

/-- Witness for C8 at `adLegacy` (legacy Action with an empty groups
collection), the no-helper host `hostOld` and the name `"g"`, covering
both modules. -/
theorem c8_group_lookup_or_create_witness :
    adLegacy.action = some aLegacy ∧ aLegacy.groups = some [] ∧
    hostOld.animUtilsAvailable = false ∧
    AnimCompat.ensure_action_group hostOld (some adLegacy) "g"
      = (some "g", some (groupsEnsure [] "g").2) ∧
    AnimCompatBak.ensure_action_group hostOld (some adLegacy) "g"
      = Except.ok (some "g", some (groupsEnsure [] "g").2) :=
  ⟨rfl, rfl, rfl,
    (c8_group_lookup_or_create_idempotent hostOld adLegacy aLegacy [] "g" rfl rfl).1,
    (c8_group_lookup_or_create_idempotent hostOld adLegacy aLegacy [] "g" rfl rfl).2.2.2.2.2.1
      (Or.inl rfl)⟩

/-- C9: every resolver called with a none `anim_data`, or with an
`anim_data` whose action is none, returns none or an empty result, for
every host behaviour (so no helper is consulted and no ChannelBag is
created) and, for `ensure_action_group`, with a `none` state component
(no groups collection touched, so no Group is created). -/
theorem c9_none_inputs_no_side_effects (host : Host) (s : Option (Option Slot))
    (e : Bool) (n : String) :
    AnimCompat.get_action_channelbag host none e = none ∧
    AnimCompat.get_action_channelbag host (some { action := none, action_slot := s }) e
      = none ∧
    AnimCompatBak.get_action_channelbag host none e = none ∧
    AnimCompatBak.get_action_channelbag host (some { action := none, action_slot := s }) e
      = none ∧
    AnimCompat.ensure_action_group host none n = (none, none) ∧
    AnimCompat.ensure_action_group host (some { action := none, action_slot := s }) n
      = (none, none) ∧
    AnimCompatBak.ensure_action_group host none n = Except.ok (none, none) ∧
    AnimCompatBak.ensure_action_group host (some { action := none, action_slot := s }) n
      = Except.ok (none, none) ∧
    get_channelbag_for_anim_data host none = none ∧
    get_channelbag_for_anim_data host (some { action := none, action_slot := s }) = none ∧
    get_fcurves_for_anim_data host none = Except.ok [] ∧
    get_fcurves_for_anim_data host (some { action := none, action_slot := s })
      = Except.ok [] :=
  ⟨rfl, rfl, rfl, rfl, rfl, rfl, rfl, rfl, rfl, rfl, rfl, rfl⟩

/-- C10: `iter_action_fcurves` of both modules, called with a none
action, yields the empty sequence and finishes without raising, for every
host behaviour (the main module's embedding does not even depend on the
host). -/
theorem c10_iterate_none_action (host : Host) :
    AnimCompat.iter_action_fcurves none = ([], true) ∧
    AnimCompatBak.iter_action_fcurves host none = ([], true) :=
  ⟨rfl, rfl⟩
